import Mathlib

/-!
Verification of the transaction-ledger engine of the churchAccounts
application (src/app.py) against its specification.

The ledger is modelled shallowly: a pandas DataFrame of transaction rows
becomes a Lean list of `Row` records (monetary amounts as rationals, dates
as naturals preserving the calendar order that pandas datetime comparison
uses), and each source function becomes a Lean function over that model:

* `load_data`    — app.py lines 19-31 (the local-file branch: the store
                   either yields a table or raises FileNotFoundError,
                   modelled as an `Option`);
* `add_transaction` — app.py lines 45-50;
* `generate_report` / `filterRows` — app.py lines 53-68 (pandas `groupby`
  on two string keys aggregates one output row per distinct key pair,
  sorted ascending (lexicographically by Unicode code point, matching
  Python string comparison), summing Debit and Credit per group);
* `add_transactionV` — a second rendering of app.py lines 45-50 over
  dynamically typed cell values (`PyVal`), to settle what happens when a
  non-numeric debit or credit reaches the add path: pandas stores the
  value verbatim and the balance computation `df["Credit"].sum() -
  df["Debit"].sum()` then raises TypeError, modelled as `none`;
* `nextId` — the Identifier Generator of spec §4.1, which has no
  counterpart in src/app.py (no id column exists there) and is therefore
  modelled from the specification text.
-/

/-- One ledger row, the record shape produced by `add_transaction`
(app.py line 47 plus the Balance column stamped at line 49). -/
structure Row where
  date : Nat
  category : String
  subhead : String
  debit : Rat
  credit : Rat
  balance : Rat
deriving DecidableEq

/-- The canonical column set of the ledger, from the empty DataFrame
built in `load_data` (app.py line 31). -/
def canonicalColumns : List String :=
  ["Date", "Category", "Subhead", "Debit", "Credit", "Balance"]

/-- The keys of the `new_entry` dict built by `add_transaction`
(app.py line 47): exactly the five supplied fields, nothing more. -/
def newEntryColumns : List String :=
  ["Date", "Category", "Subhead", "Debit", "Credit"]

/-- A loaded table: its column list and its rows. -/
structure Table where
  cols : List String
  rows : List Row
deriving DecidableEq

/-- app.py lines 27-31 (local-file branch): reading the backing store
either succeeds with a table or raises FileNotFoundError (`none`), in
which case an empty DataFrame with the canonical columns is returned. -/
def load_data : Option Table → Table
  | some t => t
  | none => { cols := canonicalColumns, rows := [] }

/-- Sum of the Credit column, `df["Credit"].sum()` (app.py line 49). -/
def totalCredit (df : List Row) : Rat :=
  (df.map Row.credit).sum

/-- Sum of the Debit column, `df["Debit"].sum()` (app.py line 49). -/
def totalDebit (df : List Row) : Rat :=
  (df.map Row.debit).sum

/-- app.py lines 45-50: append the new entry to the loaded ledger
(`pd.concat`, line 48), then overwrite the whole Balance column with the
single value `df["Credit"].sum() - df["Debit"].sum()` (line 49). -/
def add_transaction (df : List Row) (date : Nat) (category subhead : String)
    (debit credit : Rat) : List Row :=
  let df2 := df ++ [{ date := date, category := category, subhead := subhead,
                      debit := debit, credit := credit, balance := 0 }]
  let b := totalCredit df2 - totalDebit df2
  df2.map fun r => { r with balance := b }

/-- The non-derived fields of a row: everything except Balance. -/
def entryOf (r : Row) : Nat × String × String × Rat × Rat :=
  (r.date, r.category, r.subhead, r.debit, r.credit)

/-- Python truthiness of an optional string filter argument: `if category:`
(app.py lines 63, 65) runs the filter only when the argument is neither
`None` nor the empty string. -/
def truthy : Option String → Bool
  | none => false
  | some s => !(s == "")

/-- app.py lines 57-66: keep the rows with `start_date <= Date <= end_date`
(inclusive both ends, line 61), then apply the exact-match Category filter
when `category` is truthy (lines 63-64) and the exact-match Subhead filter
when `subhead` is truthy (lines 65-66). -/
def filterRows (df : List Row) (startDate endDate : Nat)
    (category subhead : Option String) : List Row :=
  let f1 := df.filter fun r => decide (startDate ≤ r.date) && decide (r.date ≤ endDate)
  let f2 := if truthy category then f1.filter (fun r => r.category == category.getD "") else f1
  if truthy subhead then f2.filter (fun r => r.subhead == subhead.getD "") else f2

/-- The groupby key of app.py line 68: the (Category, Subhead) pair. -/
def rowKey (r : Row) : String × String :=
  (r.category, r.subhead)

/-- Debit sum of one groupby group (app.py line 68). -/
def groupDebit (rows : List Row) (k : String × String) : Rat :=
  ((rows.filter fun r => rowKey r == k).map Row.debit).sum

/-- Credit sum of one groupby group (app.py line 68). -/
def groupCredit (rows : List Row) (k : String × String) : Rat :=
  ((rows.filter fun r => rowKey r == k).map Row.credit).sum

/-- The ascending order pandas uses on the two-column groupby key: compare
Category first, then Subhead, strings ordered lexicographically by code
point exactly as Python compares them. -/
def keyLE (p q : String × String) : Prop :=
  p.1 < q.1 ∨ (p.1 = q.1 ∧ p.2 ≤ q.2)

instance : DecidableRel keyLE := fun p q => by
  unfold keyLE; infer_instance

instance : IsTotal (String × String) keyLE := by
  constructor
  intro p q
  rcases lt_trichotomy p.1 q.1 with h | h | h
  . exact Or.inl (Or.inl h)
  . rcases le_total p.2 q.2 with h2 | h2
    . exact Or.inl (Or.inr ⟨h, h2⟩)
    . exact Or.inr (Or.inr ⟨h.symm, h2⟩)
  . exact Or.inr (Or.inl h)

instance : IsTrans (String × String) keyLE := by
  constructor
  intro p q r hpq hqr
  rcases hpq with h1 | ⟨e1, l1⟩
  . rcases hqr with h2 | ⟨e2, _⟩
    . exact Or.inl (h1.trans h2)
    . exact Or.inl (e2 ▸ h1)
  . rcases hqr with h2 | ⟨e2, l2⟩
    . exact Or.inl (e1 ▸ h2)
    . exact Or.inr ⟨e1.trans e2, l1.trans l2⟩

/-- The distinct groupby keys of a row set, in the ascending order pandas
emits them (app.py line 68: `groupby` with its default key sorting). -/
def sortedKeys (rows : List Row) : List (String × String) :=
  List.insertionSort keyLE ((rows.map rowKey).dedup)

/-- app.py lines 53-68: filter by date range and optional category/subhead,
then group by (Category, Subhead) and sum Debit and Credit per group,
one output row `(category, subhead, debit_sum, credit_sum)` per distinct
key pair, in ascending key order. -/
def generate_report (df : List Row) (startDate endDate : Nat)
    (category subhead : Option String) : List (String × String × Rat × Rat) :=
  let fr := filterRows df startDate endDate category subhead
  (sortedKeys fr).map fun k => (k.1, k.2, groupDebit fr k, groupCredit fr k)

/-- A dynamically typed spreadsheet cell as the add path can receive it:
either a number or a non-numeric (unparseable) text value. -/
inductive PyVal where
  | num (q : Rat)
  | text (s : String)
deriving DecidableEq

/-- A ledger row over dynamically typed Debit/Credit/Balance cells. -/
structure RowV where
  date : Nat
  category : String
  subhead : String
  debit : PyVal
  credit : PyVal
  balance : PyVal
deriving DecidableEq

/-- The numeric column sum used at app.py line 49: with any non-numeric
cell in the column, `df[col].sum()` followed by the subtraction at line 49
raises TypeError (a string summed with or subtracted from a float), so the
result is `none`; an all-numeric column sums normally. -/
def sumV : List PyVal → Option Rat
  | [] => some 0
  | PyVal.num q :: rest => (sumV rest).map (fun s => q + s)
  | PyVal.text _ :: _ => none

/-- app.py lines 45-50 over dynamically typed cells: the new entry is
appended with the supplied Debit and Credit values stored verbatim (line
47, no parsing or normalization of any kind), then the Balance column is
stamped with `df["Credit"].sum() - df["Debit"].sum()` (line 49), which
raises TypeError (`none`) when any Debit or Credit cell is non-numeric. -/
def add_transactionV (df : List RowV) (date : Nat) (category subhead : String)
    (debit credit : PyVal) : Option (List RowV) :=
  let df2 := df ++ [{ date := date, category := category, subhead := subhead,
                      debit := debit, credit := credit, balance := PyVal.num 0 }]
  match sumV (df2.map RowV.credit), sumV (df2.map RowV.debit) with
  | some c, some d => some (df2.map fun r => { r with balance := PyVal.num (c - d) })
  | _, _ => none

/-- The digit character of a single decimal digit. -/
def dchar (d : Nat) : Char :=
  Char.ofNat (48 + d)

/-- A number rendered as exactly four decimal digits (zero-padded),
the numeric part of a transaction id. -/
def pad4 (n : Nat) : List Char :=
  [dchar (n / 1000 % 10), dchar (n / 100 % 10), dchar (n / 10 % 10), dchar (n % 10)]

/-- Decimal value of a digit string, most significant digit first. -/
def parseNum (s : List Char) : Nat :=
  s.foldl (fun a c => a * 10 + (c.toNat - 48)) 0

/-- The next character of the alphabet. -/
def nextLetter (c : Char) : Char :=
  Char.ofNat (c.toNat + 1)

/-- The id string with the given letter and four-digit numeric part. -/
def mkId (c : Char) (n : Nat) : String :=
  String.mk (c :: pad4 n)

/-- Modelled from the spec: the Identifier Generator of spec §4.1 is absent
from src/app.py (its ledger has no id column), so `next_id` is rendered
from the specification text. With no existing ids the base id `a0001` is
returned; otherwise the last id of the sequence is parsed as its first
character `letter` and its remaining digits `number`; if `number < 9999`
the number is incremented and re-padded to four digits under the same
letter; if `number == 9999` the letter advances to the next character of
the lowercase alphabet with numeric part `0001`, except that letter `z`
has no successor and the id space is exhausted (`none`). -/
def nextId (ids : List String) : Option String :=
  match ids.getLast? with
  | none => some "a0001"
  | some last =>
    match last.toList with
    | [] => none
    | c :: rest =>
      let n := parseNum rest
      if n < 9999 then some (mkId c (n + 1))
      else if n = 9999 then
        if c = 'z' then none else some (mkId (nextLetter c) 1)
      else none

theorem entryOf_restamp (b : Rat) (r : Row) :
    entryOf { r with balance := b } = entryOf r := rfl

theorem totalCredit_restamp (b : Rat) (l : List Row) :
    totalCredit (l.map fun r => { r with balance := b }) = totalCredit l := by
  unfold totalCredit
  rw [List.map_map]
  exact rfl

theorem totalDebit_restamp (b : Rat) (l : List Row) :
    totalDebit (l.map fun r => { r with balance := b }) = totalDebit l := by
  unfold totalDebit
  rw [List.map_map]
  exact rfl

theorem add_transaction_length (df : List Row) (date : Nat) (category subhead : String)
    (debit credit : Rat) :
    (add_transaction df date category subhead debit credit).length = df.length + 1 := by
  simp [add_transaction]

theorem add_transaction_take (df : List Row) (date : Nat) (category subhead : String)
    (debit credit : Rat) :
    ((add_transaction df date category subhead debit credit).take df.length).map entryOf
      = df.map entryOf := by
  simp only [add_transaction]
  rw [← List.map_take, List.take_left, List.map_map]
  exact rfl

theorem add_transaction_getLast (df : List Row) (date : Nat) (category subhead : String)
    (debit credit : Rat) :
    (add_transaction df date category subhead debit credit).getLast?.map entryOf
      = some (date, category, subhead, debit, credit) := by
  simp only [add_transaction]
  rw [List.getLast?_map, List.getLast?_concat]
  rfl

/-- C1: after a successful `add_transaction`, the Balance field of every
row of the resulting ledger equals `sum(Credit) - sum(Debit)` over all
rows of that ledger: one scope-wide snapshot value stamped identically
onto every row. -/
theorem add_balance_snapshot (df : List Row) (date : Nat) (category subhead : String)
    (debit credit : Rat) (r : Row)
    (hr : r ∈ add_transaction df date category subhead debit credit) :
    r.balance =
      totalCredit (add_transaction df date category subhead debit credit)
        - totalDebit (add_transaction df date category subhead debit credit) := by
  simp only [add_transaction] at hr ⊢
  obtain ⟨r0, _, rfl⟩ := List.mem_map.mp hr
  rw [totalCredit_restamp, totalDebit_restamp]

/-- Witness for C1 at a concrete ledger: the single row produced by adding
(debit 0, credit 5) to the empty ledger carries balance 5 = 5 - 0. -/
theorem add_balance_snapshot_witness :
    (⟨1, "Expenditure", "Utilities", 0, 5, 5⟩ : Row)
        ∈ add_transaction [] 1 "Expenditure" "Utilities" 0 5 ∧
      (⟨1, "Expenditure", "Utilities", 0, 5, 5⟩ : Row).balance =
        totalCredit (add_transaction [] 1 "Expenditure" "Utilities" 0 5)
          - totalDebit (add_transaction [] 1 "Expenditure" "Utilities" 0 5) := by
  have hm : (⟨1, "Expenditure", "Utilities", 0, 5, 5⟩ : Row)
      ∈ add_transaction [] 1 "Expenditure" "Utilities" 0 5 := by
    simp [add_transaction, totalCredit, totalDebit]
  exact ⟨hm, add_balance_snapshot [] 1 "Expenditure" "Utilities" 0 5 _ hm⟩

/-- C8: `add_transaction` appends exactly one row at the end and changes
no pre-existing row in any field other than Balance: the new length is the
old length plus one, every pre-existing row keeps its position and its
Date, Category, Subhead, Debit and Credit values, and the last row carries
the supplied field values. -/
theorem add_frame_effect (df : List Row) (date : Nat) (category subhead : String)
    (debit credit : Rat) :
    (add_transaction df date category subhead debit credit).length = df.length + 1
      ∧ ((add_transaction df date category subhead debit credit).take df.length).map entryOf
          = df.map entryOf
      ∧ (add_transaction df date category subhead debit credit).getLast?.map entryOf
          = some (date, category, subhead, debit, credit) :=
  ⟨add_transaction_length df date category subhead debit credit,
   add_transaction_take df date category subhead debit credit,
   add_transaction_getLast df date category subhead debit credit⟩

/-- C2 counterexample: `add_transaction` assigns no transaction id at all.
The entry it builds has exactly the five supplied columns (no id column
exists in the schema), and adding the same input twice yields two rows
that are equal in every field, so the appended row carries nothing fresh
distinguishing it from the existing row. -/
theorem add_no_id_counterexample :
    newEntryColumns = ["Date", "Category", "Subhead", "Debit", "Credit"]
      ∧ (add_transaction (add_transaction [] 1 "Expenditure" "Utilities" 0 0)
            1 "Expenditure" "Utilities" 0 0).length = 2
      ∧ (add_transaction (add_transaction [] 1 "Expenditure" "Utilities" 0 0)
            1 "Expenditure" "Utilities" 0 0)[0]?
        = (add_transaction (add_transaction [] 1 "Expenditure" "Utilities" 0 0)
            1 "Expenditure" "Utilities" 0 0)[1]? := by
  refine ⟨rfl, ?_, ?_⟩ <;> simp [add_transaction, totalCredit, totalDebit]

/-- C2 amended: `add_transaction` appends exactly one new row carrying the
supplied date, category, subhead, debit and credit values verbatim; no
transaction id is assigned and no identifier generator is involved (the
row consists of the five supplied fields plus the stamped Balance). -/
theorem add_appends_row_verbatim (df : List Row) (date : Nat) (category subhead : String)
    (debit credit : Rat) :
    (add_transaction df date category subhead debit credit).length = df.length + 1
      ∧ (add_transaction df date category subhead debit credit).getLast?.map entryOf
          = some (date, category, subhead, debit, credit) :=
  ⟨add_transaction_length df date category subhead debit credit,
   add_transaction_getLast df date category subhead debit credit⟩

/-- C6: when the backing store is missing on load (`FileNotFoundError`),
`load_data` returns an empty ledger with the canonical column set
Date, Category, Subhead, Debit, Credit, Balance instead of failing. -/
theorem load_data_missing_store :
    (load_data none).rows = []
      ∧ (load_data none).cols
          = ["Date", "Category", "Subhead", "Debit", "Credit", "Balance"] :=
  ⟨rfl, rfl⟩

/-- C9: passing the empty string as the subhead argument of
`generate_report` behaves exactly like passing no subhead filter (the
empty string is falsy, so the exact-match filter is skipped), and likewise
an empty category applies no category filter. -/
theorem empty_filter_skipped (df : List Row) (s e : Nat) (cat sub : Option String) :
    filterRows df s e cat (some "") = filterRows df s e cat none
      ∧ filterRows df s e (some "") sub = filterRows df s e none sub
      ∧ generate_report df s e cat (some "") = generate_report df s e cat none
      ∧ generate_report df s e (some "") sub = generate_report df s e none sub :=
  ⟨rfl, rfl, rfl, rfl⟩

theorem mem_filterRows (df : List Row) (s e : Nat) (cat sub : Option String) (r : Row) :
    r ∈ filterRows df s e cat sub ↔
      r ∈ df ∧ s ≤ r.date ∧ r.date ≤ e
        ∧ (truthy cat = true → r.category = cat.getD "")
        ∧ (truthy sub = true → r.subhead = sub.getD "") := by
  unfold filterRows
  cases hct : truthy cat <;> cases hst : truthy sub <;>
    simp [List.mem_filter, hct, hst, and_assoc] <;> tauto

/-- C4: `generate_report` keeps exactly the rows whose date lies in the
inclusive range `start_date <= date <= end_date`, and when a (nonempty)
category or subhead is given it keeps among those only the exact
matches. -/
theorem filterRows_characterization (df : List Row) (s e : Nat)
    (cat sub : Option String)
    (hcat : ∀ x, cat = some x → x ≠ "") (hsub : ∀ x, sub = some x → x ≠ "")
    (r : Row) :
    r ∈ filterRows df s e cat sub ↔
      r ∈ df ∧ s ≤ r.date ∧ r.date ≤ e
        ∧ (∀ x, cat = some x → r.category = x)
        ∧ (∀ x, sub = some x → r.subhead = x) := by
  rw [mem_filterRows]
  cases cat with
  | none => cases sub with
    | none => simp [truthy]
    | some u => have hu : u ≠ "" := hsub u rfl; simp [truthy, hu]
  | some c =>
    have hcne : c ≠ "" := hcat c rfl
    cases sub with
    | none => simp [truthy, hcne]
    | some u =>
      have hu : u ≠ "" := hsub u rfl
      simp [truthy, hcne, hu]

/-- Witness for C4 at a concrete ledger: a single in-range row matching a
given category filter is kept. -/
theorem filterRows_characterization_witness :
    (⟨3, "Expenditure", "Utilities", 500, 0, 0⟩ : Row)
        ∈ filterRows [⟨3, "Expenditure", "Utilities", 500, 0, 0⟩] 1 5
            (some "Expenditure") none ↔
      (⟨3, "Expenditure", "Utilities", 500, 0, 0⟩ : Row)
          ∈ [(⟨3, "Expenditure", "Utilities", 500, 0, 0⟩ : Row)]
        ∧ 1 ≤ (⟨3, "Expenditure", "Utilities", 500, 0, 0⟩ : Row).date
        ∧ (⟨3, "Expenditure", "Utilities", 500, 0, 0⟩ : Row).date ≤ 5
        ∧ (∀ x, (some "Expenditure" : Option String) = some x →
            (⟨3, "Expenditure", "Utilities", 500, 0, 0⟩ : Row).category = x)
        ∧ (∀ x, (none : Option String) = some x →
            (⟨3, "Expenditure", "Utilities", 500, 0, 0⟩ : Row).subhead = x) :=
  filterRows_characterization [⟨3, "Expenditure", "Utilities", 500, 0, 0⟩] 1 5
    (some "Expenditure") none
    (fun x hx => by simp at hx; subst hx; decide)
    (fun x hx => Option.noConfusion hx)
    _

theorem countP_decide_eq_nodup {α : Type} [DecidableEq α] (l : List α) (hl : l.Nodup)
    (k : α) : l.countP (fun x => decide (x = k)) = if k ∈ l then 1 else 0 := by
  induction l with
  | nil => simp
  | cons a t ih =>
    rcases List.nodup_cons.mp hl with ⟨ha, ht⟩
    rw [List.countP_cons, ih ht]
    by_cases hk : k = a
    . subst hk
      simp [ha]
    . simp [hk, Ne.symm hk]

theorem mem_sortedKeys (rows : List Row) (k : String × String) :
    k ∈ sortedKeys rows ↔ ∃ r ∈ rows, rowKey r = k := by
  unfold sortedKeys
  rw [(List.perm_insertionSort keyLE _).mem_iff]
  simp [List.mem_dedup]

theorem nodup_sortedKeys (rows : List Row) : (sortedKeys rows).Nodup :=
  ((List.perm_insertionSort keyLE _).nodup_iff).mpr (List.nodup_dedup _)

/-- C5: `generate_report` returns exactly one output row per distinct
(Category, Subhead) pair present among the filtered rows, and that row
carries the Debit sum and the Credit sum of its group, computed
independently of each other. -/
theorem report_one_row_per_key (df : List Row) (s e : Nat) (cat sub : Option String) :
    (∀ k : String × String,
        (generate_report df s e cat sub).countP (fun g => decide ((g.1, g.2.1) = k))
          = if (filterRows df s e cat sub).any (fun r => decide (rowKey r = k))
            then 1 else 0)
      ∧ ∀ g ∈ generate_report df s e cat sub,
          g.2.2.1 = groupDebit (filterRows df s e cat sub) (g.1, g.2.1)
            ∧ g.2.2.2 = groupCredit (filterRows df s e cat sub) (g.1, g.2.1) := by
  constructor
  . intro k
    show (List.countP _ (List.map _ (sortedKeys (filterRows df s e cat sub)))) = _
    rw [List.countP_map]
    have hcomp :
        ((fun g : String × String × Rat × Rat => decide ((g.1, g.2.1) = k)) ∘
          (fun p : String × String =>
            (p.1, p.2, groupDebit (filterRows df s e cat sub) p,
              groupCredit (filterRows df s e cat sub) p)))
          = fun x : String × String => decide (x = k) := rfl
    rw [hcomp, countP_decide_eq_nodup _ (nodup_sortedKeys _) k]
    by_cases hk : ∃ r ∈ filterRows df s e cat sub, rowKey r = k
    . rw [if_pos ((mem_sortedKeys _ _).mpr hk), if_pos (by simpa [List.any_eq_true] using hk)]
    . rw [if_neg (fun hmem => hk ((mem_sortedKeys _ _).mp hmem)),
        if_neg (by simpa [List.any_eq_true] using hk)]
  . intro g hg
    obtain ⟨p, _, rfl⟩ := List.mem_map.mp hg
    exact ⟨rfl, rfl⟩

/-- C10: the rows of the report are in ascending sorted order by
(Category, Subhead) — the default pandas groupby key sorting — so the
output order is deterministic. -/
theorem report_sorted (df : List Row) (s e : Nat) (cat sub : Option String) :
    List.Sorted (fun g h : String × String × Rat × Rat => keyLE (g.1, g.2.1) (h.1, h.2.1))
      (generate_report df s e cat sub) := by
  show List.Sorted _ (List.map _ (sortedKeys (filterRows df s e cat sub)))
  exact List.Pairwise.map _ (fun a b hab => hab)
    (List.sorted_insertionSort keyLE _)

/-- Witness for C5 at the spec's concrete example: a single-day range with
exactly one matching row (Expenditure, Utilities, debit 500, credit 0)
yields the aggregate row (Expenditure, Utilities, 500, 0). -/
theorem report_one_row_per_key_witness :
    (500 : Rat) = groupDebit
        (filterRows [⟨7, "Expenditure", "Utilities", 500, 0, -500⟩] 7 7 none none)
        ("Expenditure", "Utilities")
      ∧ (0 : Rat) = groupCredit
        (filterRows [⟨7, "Expenditure", "Utilities", 500, 0, -500⟩] 7 7 none none)
        ("Expenditure", "Utilities") :=
  (report_one_row_per_key [⟨7, "Expenditure", "Utilities", 500, 0, -500⟩] 7 7 none none).2
    ("Expenditure", "Utilities", 500, 0)
    (by simp [generate_report, sortedKeys, filterRows, truthy, rowKey,
          List.insertionSort, groupDebit, groupCredit])

theorem dchar_toNat (d : Nat) (h : d < 10) : (dchar d).toNat = 48 + d := by
  interval_cases d <;> decide

theorem parseNum_pad4 (n : Nat) (h : n < 10000) : parseNum (pad4 n) = n := by
  have h1 : (dchar (n / 1000 % 10)).toNat = 48 + n / 1000 % 10 :=
    dchar_toNat _ (Nat.mod_lt _ (by omega))
  have h2 : (dchar (n / 100 % 10)).toNat = 48 + n / 100 % 10 :=
    dchar_toNat _ (Nat.mod_lt _ (by omega))
  have h3 : (dchar (n / 10 % 10)).toNat = 48 + n / 10 % 10 :=
    dchar_toNat _ (Nat.mod_lt _ (by omega))
  have h4 : (dchar (n % 10)).toNat = 48 + n % 10 :=
    dchar_toNat _ (Nat.mod_lt _ (by omega))
  simp only [parseNum, pad4, List.foldl, h1, h2, h3, h4]
  omega

theorem mkId_toList (c : Char) (n : Nat) : (mkId c n).toList = c :: pad4 n := rfl

/-- C3: `nextId` on an empty id sequence returns the base id a0001;
otherwise it parses the last id of the sequence as a letter and a
four-digit number, increments the number under the same letter while the
number is below 9999, and at 9999 rolls over to the next lowercase letter
with numeric part 0001 — in particular a9999 is followed by b0001 and
b0042 by b0043. -/
theorem nextId_spec :
    nextId [] = some "a0001"
      ∧ (∀ (l : List String) (c : Char) (n : Nat), n < 9999 →
          nextId (l ++ [mkId c n]) = some (mkId c (n + 1)))
      ∧ (∀ (l : List String) (c : Char), 'a' ≤ c → c < 'z' →
          nextId (l ++ [mkId c 9999]) = some (mkId (nextLetter c) 1))
      ∧ nextId ["c0007", "a9999"] = some "b0001"
      ∧ nextId ["a0001", "b0042"] = some "b0043" := by
  refine ⟨rfl, ?_, ?_, by decide, by decide⟩
  . intro l c n hn
    simp only [nextId, List.getLast?_concat, mkId_toList]
    rw [parseNum_pad4 n (by omega), if_pos hn]
  . intro l c _ hlt
    simp only [nextId, List.getLast?_concat, mkId_toList]
    rw [parseNum_pad4 9999 (by omega), if_neg (by omega), if_pos rfl,
      if_neg (ne_of_lt hlt)]

/-- Witness for C3: incrementing below the rollover point and rolling a
letter over at 9999, at concrete inputs. -/
theorem nextId_spec_witness :
    nextId (["a0001"] ++ [mkId 'b' 42]) = some (mkId 'b' 43)
      ∧ nextId ([] ++ [mkId 'b' 9999]) = some (mkId (nextLetter 'b') 1) :=
  ⟨nextId_spec.2.1 ["a0001"] 'b' 42 (by decide),
   nextId_spec.2.2.1 [] 'b' (by decide) (by decide)⟩

theorem sumV_num (l : List PyVal) (h : ∀ v ∈ l, ∃ q, v = PyVal.num q) :
    ∃ s, sumV l = some s := by
  induction l with
  | nil => exact ⟨0, rfl⟩
  | cons a t ih =>
    obtain ⟨q, rfl⟩ := h a (by simp)
    obtain ⟨s, hs⟩ := ih fun v hv => h v (by simp [hv])
    exact ⟨q + s, by simp [sumV, hs]⟩

/-- C7 counterexample: an unparseable (non-numeric) debit reaching the add
path is not normalized to 0.0 — it is stored verbatim and the balance
computation of app.py line 49 then fails with TypeError (`none`), instead
of producing the row with debit 0.0 that the claim predicts. -/
theorem add_no_normalization_counterexample :
    add_transactionV [] 1 "Expenditure" "Utilities" (PyVal.text "abc") (PyVal.num 0) = none
      ∧ add_transactionV [] 1 "Expenditure" "Utilities" (PyVal.text "abc") (PyVal.num 0)
        ≠ some [⟨1, "Expenditure", "Utilities", PyVal.num 0, PyVal.num 0, PyVal.num 0⟩] := by
  have h0 : add_transactionV [] 1 "Expenditure" "Utilities"
      (PyVal.text "abc") (PyVal.num 0) = none := rfl
  exact ⟨h0, by rw [h0]; exact fun h => Option.noConfusion h⟩

/-- C7 amended: the add path performs no normalization at all — debit and
credit are stored verbatim, and a non-numeric value makes the balance
computation fail rather than becoming 0.0; when the supplied debit and
credit are numeric and non-negative (which the caller's number-input
widget guarantees) and the existing rows are likewise numeric, the add
succeeds, the new last row stores the supplied values unchanged, and
every stored row has numeric debit >= 0 and credit >= 0. -/
theorem add_numeric_passthrough (df : List RowV) (date : Nat) (category subhead : String)
    (d c : Rat) (hd : 0 ≤ d) (hc : 0 ≤ c)
    (hdf : ∀ r ∈ df, (∃ q, r.debit = PyVal.num q ∧ 0 ≤ q)
      ∧ (∃ q, r.credit = PyVal.num q ∧ 0 ≤ q)) :
    ∃ out, add_transactionV df date category subhead (PyVal.num d) (PyVal.num c) = some out
      ∧ out.getLast?.map (fun r => (r.debit, r.credit)) = some (PyVal.num d, PyVal.num c)
      ∧ ∀ r ∈ out, (∃ q, r.debit = PyVal.num q ∧ 0 ≤ q)
          ∧ (∃ q, r.credit = PyVal.num q ∧ 0 ≤ q) := by
  have hall : ∀ r ∈ df ++ [(⟨date, category, subhead, PyVal.num d, PyVal.num c,
      PyVal.num 0⟩ : RowV)],
      (∃ q, r.debit = PyVal.num q ∧ 0 ≤ q) ∧ (∃ q, r.credit = PyVal.num q ∧ 0 ≤ q) := by
    intro r hr
    rcases List.mem_append.mp hr with h | h
    . exact hdf r h
    . rw [List.mem_singleton.mp h]
      exact ⟨⟨d, rfl, hd⟩, ⟨c, rfl, hc⟩⟩
  obtain ⟨sc, hsc⟩ := sumV_num ((df ++ [(⟨date, category, subhead, PyVal.num d,
      PyVal.num c, PyVal.num 0⟩ : RowV)]).map RowV.credit) (by
    intro v hv
    obtain ⟨r, hr, rfl⟩ := List.mem_map.mp hv
    obtain ⟨q, hq, _⟩ := (hall r hr).2
    exact ⟨q, hq⟩)
  obtain ⟨sd, hsd⟩ := sumV_num ((df ++ [(⟨date, category, subhead, PyVal.num d,
      PyVal.num c, PyVal.num 0⟩ : RowV)]).map RowV.debit) (by
    intro v hv
    obtain ⟨r, hr, rfl⟩ := List.mem_map.mp hv
    obtain ⟨q, hq, _⟩ := (hall r hr).1
    exact ⟨q, hq⟩)
  refine ⟨(df ++ [(⟨date, category, subhead, PyVal.num d, PyVal.num c,
      PyVal.num 0⟩ : RowV)]).map (fun r => { r with balance := PyVal.num (sc - sd) }),
    ?_, ?_, ?_⟩
  . simp only [add_transactionV]
    rw [hsc, hsd]
  . rw [List.getLast?_map, List.getLast?_concat]
    rfl
  . intro r hr
    obtain ⟨r0, hr0, rfl⟩ := List.mem_map.mp hr
    exact hall r0 hr0

/-- Witness for C7 amended at a concrete input: adding numeric debit 2 and
credit 5 to the empty dynamically typed ledger succeeds and stores them
verbatim. -/
theorem add_numeric_passthrough_witness :
    ∃ out, add_transactionV [] 1 "Expenditure" "Utilities"
        (PyVal.num 2) (PyVal.num 5) = some out
      ∧ out.getLast?.map (fun r => (r.debit, r.credit)) = some (PyVal.num 2, PyVal.num 5)
      ∧ ∀ r ∈ out, (∃ q, r.debit = PyVal.num q ∧ 0 ≤ q)
          ∧ (∃ q, r.credit = PyVal.num q ∧ 0 ≤ q) :=
  add_numeric_passthrough [] 1 "Expenditure" "Utilities" 2 5
    (by decide) (by decide) (by simp)
